import Mathlib

/-!
Shallow embedding of `src/register-commands.mjs`, a one-shot CLI that
validates environment configuration, builds a static Discord command
catalog, and either previews (dry run) or submits it, classifying any
error from the submission.  The process environment is modelled as a
partial map from variable names to string values; console output is a
list of lines; the external network call is an input (`NetResult`).
-/

/-- The process environment: a partial map from variable names to values. -/
def EnvMap : Type := String → Option String

/-- Point update of the environment (`process.env[name] = v`). -/
def setEnv (env : EnvMap) (name v : String) : EnvMap :=
  fun n => if n = name then some v else env n

/-- JS `String.prototype.trim`: strip leading and trailing whitespace. -/
def jsTrim (s : String) : String :=
  ⟨((s.data.dropWhile Char.isWhitespace).reverse.dropWhile Char.isWhitespace).reverse⟩

/-- JS `String.prototype.toLowerCase` (ASCII case fold). -/
def jsToLower (s : String) : String :=
  ⟨s.data.map Char.toLower⟩

/-- Embedding of `readEnv(name)`: reads `process.env[name]`; if it is a
string whose trim is non-empty, writes the trimmed value back into the
environment and returns it; otherwise returns the empty string and
leaves the environment unchanged. -/
def readEnv (env : EnvMap) (name : String) : String × EnvMap :=
  match env name with
  | some value =>
    let trimmed := jsTrim value
    if trimmed ≠ "" then (trimmed, setEnv env name trimmed)
    else ("", env)
  | none => ("", env)

/-- The three validated configuration values read at startup. -/
structure Config where
  token : String
  clientId : String
  guildId : String
deriving DecidableEq

/-- The startup sequence `DISCORD_TOKEN := readEnv(...); CLIENT_ID := ...;
GUILD_ID := ...`, returning the values and the updated environment. -/
def readAll (env : EnvMap) : Config × EnvMap :=
  let r1 := readEnv env "DISCORD_TOKEN"
  let r2 := readEnv r1.2 "CLIENT_ID"
  let r3 := readEnv r2.2 "GUILD_ID"
  (⟨r1.1, r2.1, r3.1⟩, r3.2)

/-- The three required environment variable names. -/
def requiredNames : List String := ["DISCORD_TOKEN", "CLIENT_ID", "GUILD_ID"]

/-- Embedding of the `missingVars` computation: the names among the three
required variables whose read value is falsy (the empty string). -/
def missingVars (cfg : Config) : List String :=
  (([("DISCORD_TOKEN", cfg.token), ("CLIENT_ID", cfg.clientId),
     ("GUILD_ID", cfg.guildId)]).filter (fun p => p.2 = "")).map Prod.fst

/-- A required variable counts as absent when it is unset in the
environment or trims to the empty string. -/
def absent (env : EnvMap) (name : String) : Bool :=
  match env name with
  | some v => jsTrim v = ""
  | none => true

/-- Embedding of `snowflakePattern = /^\d{17,20}$/`. -/
def isSnowflake (s : String) : Bool :=
  17 ≤ s.data.length && s.data.length ≤ 20 && s.data.all Char.isDigit

/-- Option type for slash-command options (string or integer). -/
inductive OptType where
  | string
  | integer
deriving DecidableEq

/-- A serialized slash-command option: type, name, description, required
flag, optional integer bounds, and enumerated string choices. -/
structure CmdOption where
  type : OptType
  name : String
  description : String
  required : Bool
  minValue : Option Int
  maxValue : Option Int
  choices : List (String × String)
deriving DecidableEq

/-- A serialized command definition: `kind = 1` is a chat-input (slash)
command, `kind = 3` a message context-menu command (the wire `type`). -/
structure Command where
  kind : Nat
  name : String
  description : String
  options : List CmdOption
deriving DecidableEq

/-- Embedding of the `commands` catalog: the five serialized command
definitions, in declaration order. -/
def commands : List Command :=
  [ { kind := 1, name := "ping", description := "Replies with Pong!", options := [] },
    { kind := 1, name := "echo", description := "Echo back the provided text",
      options := [ { type := .string, name := "text",
                     description := "What should I say?", required := true,
                     minValue := none, maxValue := none, choices := [] } ] },
    { kind := 1, name := "roll", description := "Roll a dice",
      options := [ { type := .integer, name := "sides",
                     description := "How many sides? (default 6)", required := false,
                     minValue := some 2, maxValue := some 1000, choices := [] } ] },
    { kind := 1, name := "ye",
      description := "Render text in Olde English (Shakespearean style)",
      options := [ { type := .string, name := "text",
                     description := "Text to translate", required := true,
                     minValue := none, maxValue := none, choices := [] },
                   { type := .string, name := "style", description := "Flavor",
                     required := false, minValue := none, maxValue := none,
                     choices := [("plain", "plain"),
                                 ("bardic (adds “Prithee/Forsooth…”)", "bardic")] } ] },
    { kind := 3, name := "Ye Olde-ify", description := "", options := [] } ]

/-- A numeric or string error code (`error.code` in JS may be either). -/
inductive JsCode where
  | num (n : Int)
  | str (s : String)
deriving DecidableEq

/-- The shape of an error thrown by the live submission: optional
top-level code, optional `rawError.code`, optional HTTP status, whether
it is an `AggregateError`, and its constituent errors. -/
inductive JsError where
  | mk : Option JsCode → Option JsCode → Option Int → Bool → List JsError → JsError

/-- Top-level `error.code`. -/
def JsError.code : JsError → Option JsCode
  | .mk c _ _ _ _ => c

/-- Nested `error.rawError.code`. -/
def JsError.rawCode : JsError → Option JsCode
  | .mk _ rc _ _ _ => rc

/-- HTTP `error.status`. -/
def JsError.status : JsError → Option Int
  | .mk _ _ st _ _ => st

/-- Whether the error is an `AggregateError`. -/
def JsError.isAggregate : JsError → Bool
  | .mk _ _ _ ag _ => ag

/-- The constituent errors of an aggregate error. -/
def JsError.errors : JsError → List JsError
  | .mk _ _ _ _ es => es

/-- Diagnostic outcomes of a run. -/
inductive Outcome where
  | Success
  | ConfigError
  | ValidationError
  | AccessDenied
  | Unauthorized
  | Forbidden
  | NetworkUnreachable
  | UnknownFailure
deriving DecidableEq

/-- Embedding of the `catch` block's branch conditions, in source order:
50001 (top-level or raw) → AccessDenied; status 401 → Unauthorized;
status 403 → Forbidden; aggregate whose every constituent has code
ENETUNREACH or ENOTFOUND → NetworkUnreachable; single ENOTFOUND or
ENETUNREACH code → NetworkUnreachable; otherwise UnknownFailure. -/
def classify (e : JsError) : Outcome :=
  if e.code = some (JsCode.num 50001) ∨ e.rawCode = some (JsCode.num 50001) then
    .AccessDenied
  else if e.status = some 401 then
    .Unauthorized
  else if e.status = some 403 then
    .Forbidden
  else if e.isAggregate = true ∧
      e.errors.all (fun err =>
        err.code = some (JsCode.str "ENETUNREACH") ∨
        err.code = some (JsCode.str "ENOTFOUND")) = true then
    .NetworkUnreachable
  else if e.code = some (JsCode.str "ENOTFOUND") ∨
      e.code = some (JsCode.str "ENETUNREACH") then
    .NetworkUnreachable
  else
    .UnknownFailure

/-- An output line: plain text, or text followed by a dumped error object
(`console.error(msg, error)`). -/
inductive Line where
  | text (s : String)
  | textErr (s : String) (e : JsError)

/-- JS truthiness of an optional environment value: present and non-empty. -/
def truthyStr : Option String → Bool
  | some s => s ≠ ""
  | none => false

/-- The result of the live network call, supplied as an input to the model:
either success or a thrown error. -/
inductive NetResult where
  | ok
  | err (e : JsError)

/-- The observable result of a run: exit status, console output in order,
whether the network call was attempted, and whether the command catalog
was constructed. -/
structure RunResult where
  exitCode : Nat
  output : List Line
  networkCalled : Bool
  catalogBuilt : Bool

/-- Output and exit of the missing-variables early exit. -/
def missingResult (missing : List String) : RunResult :=
  { exitCode := 1,
    output := [Line.text "❌ Missing required environment variables:",
               Line.text ("   " ++ String.intercalate ", " missing),
               Line.text "Create a .env file with these variables set."],
    networkCalled := false, catalogBuilt := false }

/-- Output and exit of the invalid-CLIENT_ID early exit. -/
def clientIdInvalidResult : RunResult :=
  { exitCode := 1,
    output := [Line.text "❌ CLIENT_ID is not a valid Discord ID (must be 17-20 digits)."],
    networkCalled := false, catalogBuilt := false }

/-- Output and exit of the invalid-GUILD_ID early exit. -/
def guildIdInvalidResult : RunResult :=
  { exitCode := 1,
    output := [Line.text "❌ GUILD_ID is not a valid Discord ID (must be 17-20 digits)."],
    networkCalled := false, catalogBuilt := false }

/-- The progress lines printed at the start of `registerCommands`. -/
def startLines (cfg : Config) : List Line :=
  [Line.text "📝 Starting command registration…",
   Line.text ("   • Application ID: " ++ cfg.clientId),
   Line.text ("   • Guild ID: " ++ cfg.guildId)]

/-- The dry-run preview: header plus one bullet per catalog command name,
in catalog order. -/
def dryRunLines : List Line :=
  [Line.text "ℹ️ Dry run enabled — no request sent to Discord.",
   Line.text "   Commands that would be registered:"] ++
  commands.map (fun c => Line.text ("   • " ++ c.name))

/-- The success lines after a live registration. -/
def successLines : List Line :=
  [Line.text "✅ Commands registered successfully!",
   Line.text "   Commands should be available immediately in the guild."]

/-- The four enumerated root causes printed for Missing Access (50001). -/
def accessCauseLines : List Line :=
  [Line.text "❌ Missing Access (code 50001). Common causes:",
   Line.text "   1. The bot is not a member of the guild specified by GUILD_ID.",
   Line.text "   2. CLIENT_ID doesn\x27t match the application for the provided bot token.",
   Line.text "   3. GUILD_ID points to a server where the bot lacks access.",
   Line.text "   4. The bot was invited without the \"applications.commands\" scope."]

/-- The invite-URL hint, printed only when `DISCORD_BOT_INVITE` is truthy. -/
def inviteHint (env : EnvMap) : List Line :=
  if truthyStr (env "DISCORD_BOT_INVITE") then
    [Line.text "   Re-invite the bot using:",
     Line.text ("     " ++ (env "DISCORD_BOT_INVITE").getD "")]
  else []

/-- The two lines of the network-unreachable diagnostic. -/
def networkErrorLines : List Line :=
  [Line.text "❌ Network error: unable to reach Discord.",
   Line.text "   Check your internet connection, firewall, or proxy settings and try again."]

/-- The diagnostic lines of the `catch` block, selected by `classify`
(each `Outcome` corresponds to exactly one branch of the source chain). -/
def errorLines (env : EnvMap) (e : JsError) : List Line :=
  match classify e with
  | .AccessDenied => accessCauseLines ++ inviteHint env
  | .Unauthorized =>
      [Line.text "❌ Unauthorized (401). Double-check DISCORD_TOKEN — it may be invalid or revoked."]
  | .Forbidden =>
      [Line.text "❌ Forbidden (403). Ensure the bot has the \"applications.commands\" scope in the target guild."]
  | .NetworkUnreachable => networkErrorLines
  | _ => [Line.textErr "❌ Failed to register commands:" e]

/-- Embedding of `registerCommands()`: derives the run mode from the
invocation arguments, prints the start lines, then either previews the
catalog (dry run), reports success, or classifies the thrown error,
setting exit code 1 and appending the debug dump when debug is active. -/
def registerCommandsRun (env : EnvMap) (cfg : Config) (argv : List String)
    (net : NetResult) : RunResult :=
  let dryRun := argv.contains "--dry-run" || argv.contains "--noop" || argv.contains "-n"
  let debugFlag := argv.contains "--debug" ||
    (["1", "true", "yes"]).contains (((env "DEBUG").map jsToLower).getD "")
  if dryRun then
    { exitCode := 0, output := startLines cfg ++ dryRunLines,
      networkCalled := false, catalogBuilt := true }
  else
    match net with
    | .ok =>
        { exitCode := 0, output := startLines cfg ++ successLines,
          networkCalled := true, catalogBuilt := true }
    | .err e =>
        { exitCode := 1,
          output := startLines cfg ++ errorLines env e ++
            (if debugFlag then [Line.textErr "🛠️ Debug details:" e] else []),
          networkCalled := true, catalogBuilt := true }

/-- The whole script: read and reflect the three variables, exit early on
missing variables, then on malformed identifiers, otherwise build the
catalog and run `registerCommands`. -/
def run (env : EnvMap) (argv : List String) (net : NetResult) : RunResult :=
  let cfg := (readAll env).1
  let env' := (readAll env).2
  let missing := missingVars cfg
  if missing ≠ [] then missingResult missing
  else if isSnowflake cfg.clientId = false then clientIdInvalidResult
  else if isSnowflake cfg.guildId = false then guildIdInvalidResult
  else registerCommandsRun env' cfg argv net

/-- Modelled from the spec's decision-table description: the ordered list
of (predicate, outcome) pairs of the failure classifier, first match wins,
default `UnknownFailure`.  Compared against `classify` (from the source). -/
def specTable : List ((JsError → Bool) × Outcome) :=
  [ (fun e => decide (e.code = some (JsCode.num 50001) ∨
        e.rawCode = some (JsCode.num 50001)), .AccessDenied),
    (fun e => decide (e.status = some 401), .Unauthorized),
    (fun e => decide (e.status = some 403), .Forbidden),
    (fun e => e.isAggregate && e.errors.all (fun err =>
        decide (err.code = some (JsCode.str "ENETUNREACH") ∨
          err.code = some (JsCode.str "ENOTFOUND"))), .NetworkUnreachable),
    (fun e => decide (e.code = some (JsCode.str "ENOTFOUND") ∨
        e.code = some (JsCode.str "ENETUNREACH")), .NetworkUnreachable) ]

/-- Evaluate an ordered decision table top-to-bottom, first match wins. -/
def firstMatch : List ((JsError → Bool) × Outcome) → JsError → Outcome
  | [], _ => .UnknownFailure
  | (p, o) :: rest, e => if p e then o else firstMatch rest e

/-- A fully valid environment, used to instantiate general theorems. -/
def envGood : EnvMap := fun n =>
  if n = "DISCORD_TOKEN" then some " secret-value "
  else if n = "CLIENT_ID" then some "12345678901234567"
  else if n = "GUILD_ID" then some "123456789012345678"
  else none

/-- `envGood` with a different credential value. -/
def envGood2 : EnvMap := fun n =>
  if n = "DISCORD_TOKEN" then some "other-value" else envGood n

/-- An environment with `DISCORD_TOKEN` unset and `GUILD_ID` whitespace. -/
def envMissing : EnvMap := fun n =>
  if n = "CLIENT_ID" then some "12345678901234567"
  else if n = "GUILD_ID" then some "   " else none

/-- A valid-variables environment whose `CLIENT_ID` is not a snowflake. -/
def envBadId : EnvMap := fun n =>
  if n = "DISCORD_TOKEN" then some "secret-value"
  else if n = "CLIENT_ID" then some "123"
  else if n = "GUILD_ID" then some "123456789012345678" else none

/-- An error carrying platform code 50001 and HTTP status 401. -/
def e50001 : JsError := JsError.mk (some (JsCode.num 50001)) none (some 401) false []

/-- An error with HTTP status 401 only. -/
def e401 : JsError := JsError.mk none none (some 401) false []

/-- An error with HTTP status 403 only. -/
def e403 : JsError := JsError.mk none none (some 403) false []

/-- An aggregate error whose constituents all carry network codes. -/
def eAgg : JsError :=
  JsError.mk none none none true
    [JsError.mk (some (JsCode.str "ENETUNREACH")) none none false [],
     JsError.mk (some (JsCode.str "ENOTFOUND")) none none false []]

/-- An aggregate error with an empty constituent list. -/
def emptyAggregate : JsError := JsError.mk none none none true []

/-- `readEnv` returns the same value on environments agreeing at the name. -/
theorem readEnv_fst_eq (env1 env2 : EnvMap) (name : String)
    (h : env1 name = env2 name) :
    (readEnv env1 name).1 = (readEnv env2 name).1 := by
  unfold readEnv
  rw [h]
  cases henv : env2 name with
  | none => rfl
  | some v =>
    dsimp only
    by_cases ht : jsTrim v ≠ ""
    · rw [if_pos ht, if_pos ht]
    · rw [if_neg ht, if_neg ht]

/-- `readEnv name` leaves every other environment entry unchanged. -/
theorem readEnv_snd_apply (env : EnvMap) (name n : String) (h : n ≠ name) :
    (readEnv env name).2 n = env n := by
  unfold readEnv
  cases henv : env name with
  | none => rfl
  | some v =>
    dsimp only
    by_cases ht : jsTrim v ≠ ""
    · rw [if_pos ht]
      unfold setEnv
      dsimp only
      rw [if_neg h]
    · rw [if_neg ht]

/-- On a present value with non-empty trim, `readEnv` returns the trimmed
value and writes it back. -/
theorem readEnv_some (env : EnvMap) (name v : String) (hv : env name = some v)
    (h : jsTrim v ≠ "") :
    readEnv env name = (jsTrim v, setEnv env name (jsTrim v)) := by
  unfold readEnv
  rw [hv]
  dsimp only
  rw [if_pos h]

/-- On a present value with non-empty trim, the updated environment holds
the trimmed value at the name. -/
theorem readEnv_snd_self (env : EnvMap) (name v : String) (hv : env name = some v)
    (h : jsTrim v ≠ "") :
    (readEnv env name).2 name = some (jsTrim v) := by
  rw [readEnv_some env name v hv h]
  show setEnv env name (jsTrim v) name = some (jsTrim v)
  unfold setEnv
  rw [if_pos rfl]

/-- The value read by `readEnv` is empty exactly when the variable is
absent (unset, or trimming to the empty string). -/
theorem readEnv_fst_empty_bool (env : EnvMap) (name : String) :
    decide ((readEnv env name).1 = "") = absent env name := by
  unfold readEnv absent
  cases henv : env name with
  | none => simp
  | some v =>
    dsimp only
    by_cases h : jsTrim v = ""
    · rw [if_neg (by simp [h])]
      simp [h]
    · rw [if_pos h]

/-- `readEnv` updates agree at any point where the environments agree,
provided they agree at the read name. -/
theorem readEnv_snd_eq_at (env1 env2 : EnvMap) (name n : String)
    (hname : env1 name = env2 name) (hn : env1 n = env2 n) :
    (readEnv env1 name).2 n = (readEnv env2 name).2 n := by
  unfold readEnv
  rw [hname]
  cases henv : env2 name with
  | none => exact hn
  | some v =>
    dsimp only
    by_cases h : jsTrim v ≠ ""
    · rw [if_pos h, if_pos h]
      unfold setEnv
      dsimp only
      by_cases he : n = name
      · rw [if_pos he, if_pos he]
      · rw [if_neg he, if_neg he]
        exact hn
    · rw [if_neg h, if_neg h]
      exact hn

/-- The configuration read at startup, expressed by independent reads of
the three variables from the initial environment. -/
theorem readAll_fst (env : EnvMap) :
    (readAll env).1 = ⟨(readEnv env "DISCORD_TOKEN").1, (readEnv env "CLIENT_ID").1,
      (readEnv env "GUILD_ID").1⟩ := by
  have e2 : (readEnv (readEnv env "DISCORD_TOKEN").2 "CLIENT_ID").1
      = (readEnv env "CLIENT_ID").1 :=
    readEnv_fst_eq _ _ _ (readEnv_snd_apply _ _ _ (by decide))
  have e3 : (readEnv (readEnv (readEnv env "DISCORD_TOKEN").2 "CLIENT_ID").2 "GUILD_ID").1
      = (readEnv env "GUILD_ID").1 := by
    apply readEnv_fst_eq
    rw [readEnv_snd_apply _ _ _ (by decide), readEnv_snd_apply _ _ _ (by decide)]
  unfold readAll
  dsimp only
  rw [e2, e3]

/-- The environment after startup, as the nested `readEnv` updates. -/
theorem readAll_snd_unfold (env : EnvMap) :
    (readAll env).2
      = (readEnv (readEnv (readEnv env "DISCORD_TOKEN").2 "CLIENT_ID").2 "GUILD_ID").2 := rfl

/-- Startup reads leave every entry other than the three names unchanged. -/
theorem readAll_snd_apply (env : EnvMap) (n : String)
    (h1 : n ≠ "DISCORD_TOKEN") (h2 : n ≠ "CLIENT_ID") (h3 : n ≠ "GUILD_ID") :
    (readAll env).2 n = env n := by
  rw [readAll_snd_unfold]
  rw [readEnv_snd_apply _ _ _ h3, readEnv_snd_apply _ _ _ h2,
    readEnv_snd_apply _ _ _ h1]

/-- Startup reflects a present, non-empty `DISCORD_TOKEN` trimmed. -/
theorem readAll_snd_token (env : EnvMap) (v : String)
    (hv : env "DISCORD_TOKEN" = some v) (h : jsTrim v ≠ "") :
    (readAll env).2 "DISCORD_TOKEN" = some (jsTrim v) := by
  rw [readAll_snd_unfold]
  rw [readEnv_snd_apply _ _ _ (by decide), readEnv_snd_apply _ _ _ (by decide)]
  exact readEnv_snd_self _ _ _ hv h

/-- Startup reflects a present, non-empty `CLIENT_ID` trimmed. -/
theorem readAll_snd_client (env : EnvMap) (v : String)
    (hv : env "CLIENT_ID" = some v) (h : jsTrim v ≠ "") :
    (readAll env).2 "CLIENT_ID" = some (jsTrim v) := by
  rw [readAll_snd_unfold]
  rw [readEnv_snd_apply _ _ _ (by decide)]
  apply readEnv_snd_self
  · rw [readEnv_snd_apply _ _ _ (by decide)]
    exact hv
  · exact h

/-- Startup reflects a present, non-empty `GUILD_ID` trimmed. -/
theorem readAll_snd_guild (env : EnvMap) (v : String)
    (hv : env "GUILD_ID" = some v) (h : jsTrim v ≠ "") :
    (readAll env).2 "GUILD_ID" = some (jsTrim v) := by
  rw [readAll_snd_unfold]
  apply readEnv_snd_self
  · rw [readEnv_snd_apply _ _ _ (by decide), readEnv_snd_apply _ _ _ (by decide)]
    exact hv
  · exact h

/-- `missingVars` written as concatenated per-field contributions. -/
theorem missingVars_eq (cfg : Config) :
    missingVars cfg =
      (if cfg.token = "" then ["DISCORD_TOKEN"] else []) ++
      (if cfg.clientId = "" then ["CLIENT_ID"] else []) ++
      (if cfg.guildId = "" then ["GUILD_ID"] else []) := by
  unfold missingVars
  by_cases h1 : cfg.token = "" <;> by_cases h2 : cfg.clientId = "" <;>
    by_cases h3 : cfg.guildId = "" <;> simp [h1, h2, h3]

/-- The missing-variable report is exactly the required names whose
environment entry is absent, in declaration order. -/
theorem missingVars_filter (env : EnvMap) :
    missingVars (readAll env).1
      = requiredNames.filter (fun name => absent env name) := by
  have hT := readEnv_fst_empty_bool env "DISCORD_TOKEN"
  have hC := readEnv_fst_empty_bool env "CLIENT_ID"
  have hG := readEnv_fst_empty_bool env "GUILD_ID"
  rw [readAll_fst, missingVars_eq]
  unfold requiredNames
  simp only [List.filter_cons, List.filter_nil, ← hT, ← hC, ← hG, decide_eq_true_eq]
  by_cases h1 : (readEnv env "DISCORD_TOKEN").1 = "" <;>
  by_cases h2 : (readEnv env "CLIENT_ID").1 = "" <;>
  by_cases h3 : (readEnv env "GUILD_ID").1 = "" <;>
  simp [h1, h2, h3]

/-- A run with a non-empty missing-variable set is the early exit. -/
theorem run_missing (env : EnvMap) (argv : List String) (net : NetResult)
    (h : missingVars (readAll env).1 ≠ []) :
    run env argv net = missingResult (missingVars (readAll env).1) := by
  unfold run
  dsimp only
  rw [if_pos h]

/-- C1: whenever one or more of the three required variables is missing,
empty, or all-whitespace after trimming, the run exits with status 1,
attempts no network call, builds no catalog, and reports exactly the
full set of missing names in one message (the absent required names, in
declaration order, joined into a single line). -/
theorem c1_missing_vars_abort (env : EnvMap) (argv : List String) (net : NetResult)
    (h : absent env "DISCORD_TOKEN" = true ∨ absent env "CLIENT_ID" = true ∨
      absent env "GUILD_ID" = true) :
    (run env argv net).exitCode = 1 ∧
    (run env argv net).networkCalled = false ∧
    (run env argv net).catalogBuilt = false ∧
    (run env argv net).output =
      [Line.text "❌ Missing required environment variables:",
       Line.text ("   " ++ String.intercalate ", "
         (requiredNames.filter (fun name => absent env name))),
       Line.text "Create a .env file with these variables set."] := by
  have hfilter := missingVars_filter env
  have hne : missingVars (readAll env).1 ≠ [] := by
    rw [hfilter]
    rcases h with h | h | h
    · exact List.ne_nil_of_mem (List.mem_filter.2 ⟨by decide, h⟩)
    · exact List.ne_nil_of_mem (List.mem_filter.2 ⟨by decide, h⟩)
    · exact List.ne_nil_of_mem (List.mem_filter.2 ⟨by decide, h⟩)
  rw [run_missing env argv net hne]
  refine ⟨rfl, rfl, rfl, ?_⟩
  unfold missingResult
  rw [hfilter]

/-- C2: an application or guild identifier that does not match the strict
17–20-digit pattern makes the run exit with status 1 before the catalog
is built and before any network call, naming the offending field
(CLIENT_ID is checked first). -/
theorem c2_invalid_snowflake_abort (env : EnvMap) (argv : List String) (net : NetResult)
    (hm : missingVars (readAll env).1 = [])
    (h : isSnowflake (readAll env).1.clientId = false ∨
      isSnowflake (readAll env).1.guildId = false) :
    (run env argv net).exitCode = 1 ∧
    (run env argv net).networkCalled = false ∧
    (run env argv net).catalogBuilt = false ∧
    (run env argv net).output =
      (if isSnowflake (readAll env).1.clientId = false
       then [Line.text "❌ CLIENT_ID is not a valid Discord ID (must be 17-20 digits)."]
       else [Line.text "❌ GUILD_ID is not a valid Discord ID (must be 17-20 digits)."]) := by
  unfold run
  dsimp only
  rw [if_neg (fun hk => hk hm)]
  by_cases hc : isSnowflake (readAll env).1.clientId = false
  · simp only [if_pos hc]
    exact ⟨rfl, rfl, rfl, rfl⟩
  · have hg : isSnowflake (readAll env).1.guildId = false := by tauto
    simp only [if_neg hc, if_pos hg]
    exact ⟨rfl, rfl, rfl, rfl⟩

/-- C3: with valid configuration and any of the flags --dry-run, --noop
or -n present, the run performs no network call, exits with status 0,
and prints the names of all five commands in catalog order. -/
theorem c3_dry_run_preview (env : EnvMap) (argv : List String) (net : NetResult)
    (hm : missingVars (readAll env).1 = [])
    (hc : isSnowflake (readAll env).1.clientId = true)
    (hg : isSnowflake (readAll env).1.guildId = true)
    (hd : argv.contains "--dry-run" = true ∨ argv.contains "--noop" = true ∨
      argv.contains "-n" = true) :
    (run env argv net).networkCalled = false ∧
    (run env argv net).exitCode = 0 ∧
    (run env argv net).output =
      startLines (readAll env).1 ++
      [Line.text "ℹ️ Dry run enabled — no request sent to Discord.",
       Line.text "   Commands that would be registered:",
       Line.text "   • ping", Line.text "   • echo", Line.text "   • roll",
       Line.text "   • ye", Line.text "   • Ye Olde-ify"] := by
  unfold run
  dsimp only
  rw [if_neg (fun hk => hk hm), if_neg (by simp [hc]), if_neg (by simp [hg])]
  unfold registerCommandsRun
  dsimp only
  have hdr : (argv.contains "--dry-run" || argv.contains "--noop" ||
      argv.contains "-n") = true := by
    rcases hd with h | h | h <;> rw [h] <;> simp
  rw [if_pos hdr]
  refine ⟨rfl, rfl, ?_⟩
  rfl

/-- C4: the serialized catalog has exactly five entries named ping, echo,
roll, ye and Ye Olde-ify (the last a message context-menu command), with
pairwise-distinct names, and the roll command's integer option carries
bounds min = 2 and max = 1000 with min ≤ max. -/
theorem c4_catalog_invariants :
    commands.length = 5 ∧
    commands.map Command.name = ["ping", "echo", "roll", "ye", "Ye Olde-ify"] ∧
    (commands.map Command.name).Nodup ∧
    commands.map Command.kind = [1, 1, 1, 1, 3] ∧
    commands.map (fun c => c.options.map (fun o => o.type)) =
      [[], [.string], [.integer], [.string, .string], []] ∧
    commands.map (fun c => c.options.map (fun o => (o.minValue, o.maxValue))) =
      [[], [(none, none)], [(some 2, some 1000)], [(none, none), (none, none)], []] ∧
    (2 : Int) ≤ 1000 := by decide

/-- C5: an error carrying platform code 50001 at top level or nested
under the raw-error field classifies as AccessDenied, and the invite-URL
hint lines are appended exactly when the DISCORD_BOT_INVITE environment
variable is truthy; its absence changes only the hint, never the
classification. -/
theorem c5_access_denied_hint (env : EnvMap) (e : JsError)
    (h : e.code = some (JsCode.num 50001) ∨ e.rawCode = some (JsCode.num 50001)) :
    classify e = Outcome.AccessDenied ∧
    errorLines env e = accessCauseLines ++ inviteHint env ∧
    (inviteHint env ≠ [] ↔ truthyStr (env "DISCORD_BOT_INVITE") = true) := by
  have hc : classify e = Outcome.AccessDenied := by
    unfold classify
    rw [if_pos h]
  refine ⟨hc, ?_, ?_⟩
  · unfold errorLines
    rw [hc]
  · unfold inviteHint
    by_cases ht : truthyStr (env "DISCORD_BOT_INVITE") = true
    · rw [if_pos ht]
      simp [ht]
    · rw [if_neg ht]
      simp [ht]

/-- C6: without a 50001 code, status 401 classifies as Unauthorized and
status 403 as Forbidden; an aggregate error not matching the earlier
predicates whose every constituent has a host-unreachable or not-found
code classifies as NetworkUnreachable; and every live submission that
throws makes the run exit with status 1, never 0. -/
theorem c6_status_and_exit :
    (∀ e : JsError,
      ¬(e.code = some (JsCode.num 50001) ∨ e.rawCode = some (JsCode.num 50001)) →
      e.status = some 401 → classify e = Outcome.Unauthorized) ∧
    (∀ e : JsError,
      ¬(e.code = some (JsCode.num 50001) ∨ e.rawCode = some (JsCode.num 50001)) →
      e.status = some 403 → classify e = Outcome.Forbidden) ∧
    (∀ e : JsError,
      ¬(e.code = some (JsCode.num 50001) ∨ e.rawCode = some (JsCode.num 50001)) →
      e.status ≠ some 401 → e.status ≠ some 403 →
      e.isAggregate = true →
      e.errors.all (fun err =>
        err.code = some (JsCode.str "ENETUNREACH") ∨
        err.code = some (JsCode.str "ENOTFOUND")) = true →
      classify e = Outcome.NetworkUnreachable) ∧
    (∀ (env : EnvMap) (argv : List String) (e : JsError),
      missingVars (readAll env).1 = [] →
      isSnowflake (readAll env).1.clientId = true →
      isSnowflake (readAll env).1.guildId = true →
      argv.contains "--dry-run" = false → argv.contains "--noop" = false →
      argv.contains "-n" = false →
      (run env argv (NetResult.err e)).exitCode = 1) := by
  refine ⟨?_, ?_, ?_, ?_⟩
  · intro e h50 h401
    unfold classify
    rw [if_neg h50, if_pos h401]
  · intro e h50 h403
    unfold classify
    rw [if_neg h50, if_neg (by simp [h403]), if_pos h403]
  · intro e h50 h401 h403 hag hall
    unfold classify
    rw [if_neg h50, if_neg h401, if_neg h403, if_pos ⟨hag, hall⟩]
  · intro env argv e hm hc hg hd1 hd2 hd3
    unfold run
    dsimp only
    rw [if_neg (fun hk => hk hm), if_neg (by simp [hc]), if_neg (by simp [hg])]
    unfold registerCommandsRun
    dsimp only
    rw [if_neg (by rw [hd1, hd2, hd3]; simp)]

/-- C7: the failure classifier equals the spec's explicit ordered decision
table evaluated top-to-bottom with first match winning, so an error
satisfying several branch predicates receives the outcome of the
earliest matching branch. -/
theorem c7_ordered_decision_table :
    ∀ e : JsError, classify e = firstMatch specTable e := by
  intro e
  by_cases h1 : e.code = some (JsCode.num 50001) ∨ e.rawCode = some (JsCode.num 50001) <;>
  by_cases h2 : e.status = some 401 <;>
  by_cases h3 : e.status = some 403 <;>
  by_cases h4 : e.isAggregate = true <;>
  by_cases h5 : e.errors.all (fun err =>
      err.code = some (JsCode.str "ENETUNREACH") ∨
      err.code = some (JsCode.str "ENOTFOUND")) = true <;>
  by_cases h6 : e.code = some (JsCode.str "ENOTFOUND") ∨
      e.code = some (JsCode.str "ENETUNREACH") <;>
  simp [classify, firstMatch, specTable, h1, h2, h3, h4, h5, h6]

/-- C10: an aggregate error with an empty constituent list satisfies the
every-constituent-has-a-network-code predicate vacuously, classifies as
NetworkUnreachable, and a live run throwing it exits with status 1. -/
theorem c10_empty_aggregate_unreachable :
    classify emptyAggregate = Outcome.NetworkUnreachable ∧
    (run envGood [] (NetResult.err emptyAggregate)).exitCode = 1 :=
  ⟨by decide, by decide⟩

/-- C8: validation writes each required variable's trimmed value back
into the ambient environment when it is present with non-empty trim, and
modifies no environment entry outside the three required names. -/
theorem c8_trim_reflection (env : EnvMap) :
    (∀ name, name ∈ requiredNames → ∀ v, env name = some v → jsTrim v ≠ "" →
      (readAll env).2 name = some (jsTrim v)) ∧
    (∀ n, n ∉ requiredNames → (readAll env).2 n = env n) := by
  constructor
  · intro name hmem v hv ht
    have hcases : name = "DISCORD_TOKEN" ∨ name = "CLIENT_ID" ∨ name = "GUILD_ID" := by
      simpa [requiredNames] using hmem
    rcases hcases with h | h | h <;> subst h
    · exact readAll_snd_token env v hv ht
    · exact readAll_snd_client env v hv ht
    · exact readAll_snd_guild env v hv ht
  · intro n hn
    have h3 : ¬(n = "DISCORD_TOKEN" ∨ n = "CLIENT_ID" ∨ n = "GUILD_ID") := by
      simpa [requiredNames] using hn
    push_neg at h3
    exact readAll_snd_apply env n h3.1 h3.2.1 h3.2.2

/-- The diagnostic lines depend on the environment only through the
invite-URL variable. -/
theorem errorLines_congr (env1 env2 : EnvMap) (e : JsError)
    (h : env1 "DISCORD_BOT_INVITE" = env2 "DISCORD_BOT_INVITE") :
    errorLines env1 e = errorLines env2 e := by
  unfold errorLines inviteHint
  rw [h]

/-- `registerCommands` depends only on the identifier fields of the
configuration and on the DEBUG and DISCORD_BOT_INVITE variables; in
particular it never uses the credential token. -/
theorem registerCommandsRun_congr (env1 env2 : EnvMap) (cfg1 cfg2 : Config)
    (argv : List String) (net : NetResult)
    (hc : cfg1.clientId = cfg2.clientId) (hg : cfg1.guildId = cfg2.guildId)
    (hd : env1 "DEBUG" = env2 "DEBUG")
    (hi : env1 "DISCORD_BOT_INVITE" = env2 "DISCORD_BOT_INVITE") :
    registerCommandsRun env1 cfg1 argv net = registerCommandsRun env2 cfg2 argv net := by
  cases net with
  | ok =>
    unfold registerCommandsRun startLines
    dsimp only
    rw [hc, hg]
  | err e =>
    unfold registerCommandsRun startLines
    dsimp only
    rw [hc, hg, hd, errorLines_congr env1 env2 e hi]

/-- C9: two runs whose environments agree everywhere except on the
credential token, both tokens being present with non-empty trim, produce
identical results — identical output, exit status, and network
behaviour — so the token never influences any printed diagnostic. -/
theorem c9_token_noninterference (env1 env2 : EnvMap) (argv : List String)
    (net : NetResult) (v1 v2 : String)
    (hoff : ∀ n, n ≠ "DISCORD_TOKEN" → env1 n = env2 n)
    (h1 : env1 "DISCORD_TOKEN" = some v1) (h2 : env2 "DISCORD_TOKEN" = some v2)
    (ht1 : jsTrim v1 ≠ "") (ht2 : jsTrim v2 ≠ "") :
    run env1 argv net = run env2 argv net := by
  have hC := readEnv_fst_eq env1 env2 "CLIENT_ID" (hoff _ (by decide))
  have hG := readEnv_fst_eq env1 env2 "GUILD_ID" (hoff _ (by decide))
  have hccProj : (readAll env1).1.clientId = (readAll env2).1.clientId := by
    rw [readAll_fst env1, readAll_fst env2]
    exact hC
  have hggProj : (readAll env1).1.guildId = (readAll env2).1.guildId := by
    rw [readAll_fst env1, readAll_fst env2]
    exact hG
  have hmv : missingVars (readAll env1).1 = missingVars (readAll env2).1 := by
    rw [readAll_fst env1, readAll_fst env2, missingVars_eq, missingVars_eq]
    dsimp only
    rw [hC, hG, readEnv_some env1 "DISCORD_TOKEN" v1 h1 ht1,
      readEnv_some env2 "DISCORD_TOKEN" v2 h2 ht2]
    dsimp only
    rw [if_neg ht1, if_neg ht2]
  have s1 : ∀ m, m ≠ "DISCORD_TOKEN" →
      (readEnv env1 "DISCORD_TOKEN").2 m = (readEnv env2 "DISCORD_TOKEN").2 m := by
    intro m hm
    rw [readEnv_snd_apply _ _ _ hm, readEnv_snd_apply _ _ _ hm]
    exact hoff m hm
  have s2 : ∀ m, m ≠ "DISCORD_TOKEN" →
      (readEnv (readEnv env1 "DISCORD_TOKEN").2 "CLIENT_ID").2 m
        = (readEnv (readEnv env2 "DISCORD_TOKEN").2 "CLIENT_ID").2 m := by
    intro m hm
    exact readEnv_snd_eq_at _ _ _ _ (s1 _ (by decide)) (s1 m hm)
  have hoffAll : ∀ n, n ≠ "DISCORD_TOKEN" →
      (readAll env1).2 n = (readAll env2).2 n := by
    intro n hn
    rw [readAll_snd_unfold env1, readAll_snd_unfold env2]
    exact readEnv_snd_eq_at _ _ _ _ (s2 _ (by decide)) (s2 n hn)
  unfold run
  dsimp only
  rw [hmv, hccProj, hggProj]
  by_cases hm : missingVars (readAll env2).1 ≠ []
  · rw [if_pos hm, if_pos hm]
  · rw [if_neg hm, if_neg hm]
    by_cases hcs : isSnowflake (readAll env2).1.clientId = false
    · rw [if_pos hcs, if_pos hcs]
    · rw [if_neg hcs, if_neg hcs]
      by_cases hgs : isSnowflake (readAll env2).1.guildId = false
      · rw [if_pos hgs, if_pos hgs]
      · rw [if_neg hgs, if_neg hgs]
        exact registerCommandsRun_congr _ _ _ _ argv net hccProj hggProj
          (hoffAll "DEBUG" (by decide)) (hoffAll "DISCORD_BOT_INVITE" (by decide))

/-- Witness for C1 at a concrete environment with an unset token and a
whitespace guild identifier. -/
theorem c1_missing_vars_abort_witness :
    absent envMissing "DISCORD_TOKEN" = true ∧
    (run envMissing [] NetResult.ok).exitCode = 1 :=
  ⟨by decide, (c1_missing_vars_abort envMissing [] NetResult.ok (Or.inl (by decide))).1⟩

/-- Witness for C2 at a concrete environment whose CLIENT_ID is "123". -/
theorem c2_invalid_snowflake_abort_witness :
    (run envBadId [] NetResult.ok).exitCode = 1 :=
  (c2_invalid_snowflake_abort envBadId [] NetResult.ok (by decide) (Or.inl (by decide))).1

/-- Witness for C3 at a concrete valid environment with --dry-run. -/
theorem c3_dry_run_preview_witness :
    (run envGood ["--dry-run"] NetResult.ok).networkCalled = false ∧
    (run envGood ["--dry-run"] NetResult.ok).exitCode = 0 :=
  ⟨(c3_dry_run_preview envGood ["--dry-run"] NetResult.ok (by decide) (by decide)
      (by decide) (Or.inl (by decide))).1,
   (c3_dry_run_preview envGood ["--dry-run"] NetResult.ok (by decide) (by decide)
      (by decide) (Or.inl (by decide))).2.1⟩

/-- Witness for C5 at a concrete error carrying code 50001. -/
theorem c5_access_denied_hint_witness :
    classify e50001 = Outcome.AccessDenied :=
  (c5_access_denied_hint envGood e50001 (Or.inl (by decide))).1

/-- Witness for C6 at concrete 401, 403 and aggregate errors. -/
theorem c6_status_and_exit_witness :
    classify e401 = Outcome.Unauthorized ∧ classify e403 = Outcome.Forbidden ∧
    classify eAgg = Outcome.NetworkUnreachable ∧
    (run envGood [] (NetResult.err e401)).exitCode = 1 :=
  ⟨c6_status_and_exit.1 e401 (by decide) (by decide),
   c6_status_and_exit.2.1 e403 (by decide) (by decide),
   c6_status_and_exit.2.2.1 eAgg (by decide) (by decide) (by decide) (by decide)
     (by decide),
   c6_status_and_exit.2.2.2 envGood [] e401 (by decide) (by decide) (by decide)
     (by decide) (by decide) (by decide)⟩

/-- Witness for C8: the padded token value of `envGood` is reflected back
trimmed. -/
theorem c8_trim_reflection_witness :
    (readAll envGood).2 "DISCORD_TOKEN" = some "secret-value" := by
  have h := (c8_trim_reflection envGood).1 "DISCORD_TOKEN" (by decide) " secret-value "
    (by decide) (by decide)
  rwa [show jsTrim " secret-value " = "secret-value" from by decide] at h

/-- Witness for C9 at two concrete environments differing only in the
credential token. -/
theorem c9_token_noninterference_witness :
    run envGood ["--dry-run"] NetResult.ok = run envGood2 ["--dry-run"] NetResult.ok :=
  c9_token_noninterference envGood envGood2 ["--dry-run"] NetResult.ok
    " secret-value " "other-value"
    (fun n hn => by
      show envGood n = envGood2 n
      unfold envGood2
      rw [if_neg hn])
    (by decide) (by decide) (by decide) (by decide)
